import Mathlib

/-!
Verification of the KV-Raft router (`src/router/router.py`) against its
natural-language specification.

The Python module is shallowly embedded:
* Python `int` becomes `Int` (Lean `%` / `/` on `Int` are Euclidean, which
  for the positive moduli and divisors used here coincides with Python's
  `%` and `//`).
* Python strings become `List Char`; the string operations the router uses
  (`in` substring test, `split(":")`, `int(...)`, f-string rendering of an
  int) are defined below over `List Char` with Python semantics.
* `mmh3.hash64(key)[0]` (an external C library producing an unsigned 64-bit
  hash) and `urllib.parse.unquote` are external to the repository and are
  passed as function parameters to the embedded code.
* The aiohttp I/O performed by `RouterConfig.get_config` is modelled by an
  oracle: the list of per-shard fetch outcomes in `asyncio.as_completed`
  completion order, each `Option ConfigResp` (`none` = timeout/error/non-200).
* Exceptions become `Except String`; the mutable fields of `RouterConfig`
  become an explicit `RouterState` threaded through the operations.
-/

/-- `HASH_MODULO = 16384` from router.py. -/
def HASH_MODULO : Int := 16384

/-- The `for i in range(shard_count)` loop body of `get_shard_index_from_hash`:
starting at index `i` with `fuel` iterations left, return the first `i` with
`reduced_hash < (i + 1) * bucket_size`, else `none`. -/
def shardLoop (reduced bucket_size : Int) : Nat → Nat → Option Nat
  | 0, _ => none
  | n + 1, i =>
    if reduced < ((i : Int) + 1) * bucket_size then some i
    else shardLoop reduced bucket_size n (i + 1)

/-- `get_shard_index_from_hash(hash_value, shard_count)` from router.py:
raises `ValueError` on `shard_count <= 0`; otherwise reduces the hash mod
16384, takes `bucket_size = 16384 // shard_count`, scans buckets in order and
falls back to `shard_count - 1`. -/
def get_shard_index_from_hash (hash_value shard_count : Int) : Except String Int :=
  if shard_count ≤ 0 then .error "Shard count must be positive"
  else
    let reduced := hash_value % HASH_MODULO
    let bucket_size := HASH_MODULO / shard_count
    match shardLoop reduced bucket_size shard_count.toNat 0 with
    | some i => .ok (i : Int)
    | none => .ok (shard_count - 1)

/-- The spec's wording of `shardIndex` (spec §4.1), as a separate definition to
compare with the code: the smallest `i` in `[0, shardCount)` with
`reduced < (i+1) * bucketSize`, else `shardCount - 1`; `InvalidArgument` when
`shardCount <= 0`. -/
def shardIndex_specAlg (hash_value shard_count : Int) : Except String Int :=
  if shard_count ≤ 0 then .error "Shard count must be positive"
  else
    let reduced := hash_value % 16384
    let bucket_size := 16384 / shard_count
    match (List.range shard_count.toNat).find?
        (fun i : Nat => decide (reduced < ((i : Int) + 1) * bucket_size)) with
    | some i => .ok (i : Int)
    | none => .ok (shard_count - 1)

/-- `get_shard_index_from_string_key(key, shard_count)` from router.py.
`hashFn` stands for `hash_string_key`, i.e. `mmh3.hash64(key, signed=False)[0]`
(external library, unsigned 64-bit output, hence `Nat`). -/
def get_shard_index_from_string_key (hashFn : List Char → Nat)
    (key : List Char) (shard_count : Int) : Except String Int :=
  get_shard_index_from_hash ((hashFn key : Nat) : Int) shard_count

/-- Python `needle` being a leading piece of `hay` (helper for the substring
test below). -/
def startsWithB : List Char → List Char → Bool
  | [], _ => true
  | _ :: _, [] => false
  | a :: as, b :: bs => a == b && startsWithB as bs

/-- Python `needle in hay` substring containment over `List Char`. -/
def containsSub (needle : List Char) : List Char → Bool
  | [] => startsWithB needle []
  | c :: rest => startsWithB needle (c :: rest) || containsSub needle rest

/-- Python `s.split(":")` over `List Char`: `"" → [""]`, separators produce
empty pieces. -/
def splitOnColon : List Char → List (List Char)
  | [] => [[]]
  | c :: rest =>
    if c = ':' then [] :: splitOnColon rest
    else
      match splitOnColon rest with
      | [] => [[c]]
      | p :: ps => (c :: p) :: ps

/-- The starts of the runs of ten consecutive Unicode decimal-digit
characters (digit values 0 through 9), from the Unicode character database:
exactly the characters CPython's `int()` accepts as base-10 digits
(`Py_UNICODE_TODECIMAL`). -/
def pyDecimalDigitBases : List Nat :=
  [48, 1632, 1776, 1984, 2406, 2534, 2662, 2790, 2918, 3046, 3174, 3302,
   3430, 3558, 3664, 3792, 3872, 4160, 4240, 6112, 6160, 6470, 6608, 6784,
   6800, 6992, 7088, 7232, 7248, 42528, 43216, 43264, 43472, 43504, 43600,
   44016, 65296, 66720, 68912, 69734, 69872, 69942, 70096, 70384, 70736,
   70864, 71248, 71360, 71472, 71904, 72016, 72784, 73040, 73120, 92768,
   92864, 93008, 120782, 120792, 120802, 120812, 120822, 123200, 123632,
   125264, 130032]

/-- The decimal value of a character, when it is a Unicode decimal digit. -/
def pyDigitVal (c : Char) : Option Nat :=
  match pyDecimalDigitBases.find? (fun b => b ≤ c.toNat && c.toNat < b + 10) with
  | some b => some (c.toNat - b)
  | none => none

/-- The code points Python's `str.isspace` accepts: what `int()` strips from
both ends of its argument. -/
def pyWhitespaceCodes : List Nat :=
  [9, 10, 11, 12, 13, 28, 29, 30, 31, 32, 133, 160, 5760, 8192, 8193, 8194,
   8195, 8196, 8197, 8198, 8199, 8200, 8201, 8202, 8232, 8233, 8239, 8287,
   12288]

/-- Python whitespace test for a single character. -/
def pyIsSpace (c : Char) : Bool := pyWhitespaceCodes.contains c.toNat

/-- Drop leading Python whitespace. -/
def dropLeadingWs : List Char → List Char
  | [] => []
  | c :: cs => if pyIsSpace c then dropLeadingWs cs else c :: cs

/-- The whitespace stripping `int()` applies to both ends of its argument. -/
def pyStrip (s : List Char) : List Char :=
  (dropLeadingWs (dropLeadingWs s).reverse).reverse

/-- The digits after the first one, per the CPython number grammar
`digit (["_"] digit)*`: single underscores are allowed only between
digits. -/
def parseDigitsU : Nat → List Char → Option Nat
  | acc, [] => some acc
  | acc, '_' :: c :: cs =>
    match pyDigitVal c with
    | some d => parseDigitsU (acc * 10 + d) cs
    | none => none
  | _, ['_'] => none
  | acc, c :: cs =>
    match pyDigitVal c with
    | some d => parseDigitsU (acc * 10 + d) cs
    | none => none

/-- A sign-free digit string: at least one digit, then `parseDigitsU`. -/
def parseUnsigned : List Char → Option Nat
  | [] => none
  | c :: cs =>
    match pyDigitVal c with
    | some d => parseDigitsU d cs
    | none => none

/-- Python `int(s)` in base 10: strip whitespace from both ends, take an
optional sign, then decimal digits (any Unicode decimal digit, with single
underscores allowed between digits); `none` (`ValueError`) otherwise. -/
def parsePort (s : List Char) : Option Int :=
  match pyStrip s with
  | '-' :: cs => (parseUnsigned cs).map (fun n => -(n : Int))
  | '+' :: cs => (parseUnsigned cs).map (fun n => (n : Int))
  | cs => (parseUnsigned cs).map (fun n => (n : Int))

/-- Python `str(n)` for a natural number, as a character list. -/
def renderNat (n : Nat) : List Char := Nat.toDigits 10 n

/-- Python `str(i)` for an integer (f-string rendering of `server_port`). -/
def renderInt (i : Int) : List Char :=
  if i < 0 then '-' :: renderNat i.natAbs else renderNat i.natAbs

/-- The `":18"` marker the router uses to recognise Raft (consensus) ports. -/
def raftMarker : List Char := [':', '1', '8']

/-- The address-translation tail of `RouterConfig.get_shard_address`
(router.py lines 184-197), the spec's `AddressResolver.translate`: when the
address contains `":18"`, split on `":"`, require exactly two parts, parse the
port and rebuild `host:(port - 10000)`; otherwise return the address
unchanged. -/
def AddressResolver.translate (address : List Char) : Except String (List Char) :=
  if containsSub raftMarker address then
    match splitOnColon address with
    | [h, p] =>
      match parsePort p with
      | some port => .ok (h ++ ':' :: renderInt (port - 10000))
      | none => .error "Error parsing port"
    | _ => .error ("Invalid leader address format: " ++ String.mk address)
  else .ok address

/-- The `data` object of a shard's `/config` JSON response, with the optional
fields the code reads via `data.get("shardCount")` and
`data.get("shards", {})`. In the JSON the shard-map keys are the decimal
strings of the 1-based shard ids; `str` on an `int` is injective, so the map
is keyed here by the id itself. -/
structure ConfigData where
  shardCount : Option Int
  shards : List (Int × List Char)
deriving DecidableEq

/-- A parsed `/config` response dict: `{"success": ..., "data": ...}`. -/
structure ConfigResp where
  success : Bool
  data : Option ConfigData
deriving DecidableEq

/-- The default for `config.get("data", {})`: an empty dict. -/
def emptyConfigData : ConfigData := ⟨none, []⟩

/-- The mutable fields of `RouterConfig`: `_config_cache` and
`_cache_timestamp` (`_cache_ttl` is the constant 30). A cached response is
always a nonempty dict, so Python truthiness of `_config_cache` is `isSome`. -/
structure RouterState where
  config_cache : Option ConfigResp
  cache_timestamp : Int
deriving DecidableEq

/-- One `_fetch_config_from_shard` outcome per shard port, in
`asyncio.as_completed` completion order; `none` is a timeout, a connection
error or a non-200 status. -/
abbrev FetchResults := List (Option ConfigResp)

/-- The `as_completed` loop of `get_config`: the first result that is truthy
with truthy `success` wins; all others are ignored. -/
def firstSuccess : FetchResults → Option ConfigResp
  | [] => none
  | some c :: rs => if c.success then some c else firstSuccess rs
  | none :: rs => firstSuccess rs

/-- An attempt that contributes no winner: the fetch failed or the response's
`success` field is falsy. -/
def attemptUnsuccessful : Option ConfigResp → Bool
  | none => true
  | some c => !c.success

/-- `RouterConfig.get_config` (router.py lines 125-157): return the cache when
it is present and younger than 30 seconds; otherwise race the fetches, store a
winner with the time taken at the start of the call, and return `None`
(leaving the state untouched) when no attempt succeeds. -/
def get_config (st : RouterState) (now : Int) (attempts : FetchResults) :
    Option ConfigResp × RouterState :=
  if st.config_cache.isSome = true ∧ now - st.cache_timestamp < 30 then
    (st.config_cache, st)
  else
    match firstSuccess attempts with
    | some c => (some c, { config_cache := some c, cache_timestamp := now })
    | none => (none, st)

/-- `RouterConfig.get_shard_count` (router.py lines 159-170): `RuntimeError`
when no config is available, `ValueError` when `shardCount` is missing. -/
def get_shard_count (st : RouterState) (now : Int) (attempts : FetchResults) :
    Except String Int × RouterState :=
  match get_config st now attempts with
  | (none, st1) => (.error "Could not retrieve cluster configuration.", st1)
  | (some c, st1) =>
    match (c.data.getD emptyConfigData).shardCount with
    | none => (.error "shardCount not found in config response", st1)
    | some n => (.ok n, st1)

/-- `RouterConfig.get_shard_address` (router.py lines 172-197): look up the
shard id in the config's shard map (`if not leader_address` catches both an
absent id and an empty address string), then run the Raft-to-HTTP address
translation. -/
def get_shard_address (st : RouterState) (now : Int) (attempts : FetchResults)
    (shard_id : Int) : Except String (List Char) × RouterState :=
  match get_config st now attempts with
  | (none, st1) => (.error "Could not retrieve cluster configuration.", st1)
  | (some c, st1) =>
    match ((c.data.getD emptyConfigData).shards).lookup shard_id with
    | none => (.error ("Shard " ++ toString shard_id ++ " not found in config"), st1)
    | some addr =>
      if addr = [] then
        (.error ("Shard " ++ toString shard_id ++ " not found in config"), st1)
      else
        match AddressResolver.translate addr with
        | .ok a => (.ok a, st1)
        | .error e => (.error e, st1)

/-- The router-relevant fields of an incoming aiohttp request: the `key` and
`val` query parameters, whether the content type is
`application/x-www-form-urlencoded`, and the form fields; `none` is an absent
parameter. -/
structure ReqData where
  query_key : Option (List Char)
  query_val : Option (List Char)
  ct_form : Bool
  form_key : Option (List Char)
  form_val : Option (List Char)
deriving DecidableEq

/-- Python truthiness of an `Optional[str]`: `None` and `""` are falsy. -/
def pyTruthy : Option (List Char) → Bool
  | none => false
  | some s => !s.isEmpty

/-- An upstream shard's response to a forwarded request: HTTP status and body
text. -/
structure HttpResp where
  status : Nat
  body : List Char
deriving DecidableEq

/-- A handler's response: either a router-generated JSON error envelope
(`json_error_response(status, message)`) or the upstream response relayed
verbatim (`Response(text=..., status=...)`). -/
inductive HandlerResult where
  | jsonError (status : Nat) (error : String)
  | passThrough (status : Nat) (body : List Char)
deriving DecidableEq

/-- `get_handler` (router.py lines 219-252). `unquoteFn` and `quoteFn` stand
for the external `urllib.parse.unquote`/`quote`; `upstreamOf` maps the
forwarded URL to the outcome of the pooled HTTP call (`none` = network
failure or timeout, which the enclosing `try` turns into a 500). The two
`get_config` call sites (inside `get_shard_count` and `get_shard_address`)
each take their own loop time and fetch outcomes. -/
def get_handler (unquoteFn quoteFn : List Char → List Char)
    (hashFn : List Char → Nat) (req : ReqData) (st : RouterState)
    (now1 : Int) (att1 : FetchResults) (now2 : Int) (att2 : FetchResults)
    (upstreamOf : List Char → Option HttpResp) : HandlerResult × RouterState :=
  let key0 := req.query_key
  let key1 := if !pyTruthy key0 && req.ct_form then req.form_key else key0
  if !pyTruthy key1 then (.jsonError 400 "Key parameter is required", st)
  else
    let key := unquoteFn (key1.getD [])
    match get_shard_count st now1 att1 with
    | (.error e, st1) => (.jsonError 500 ("Error contacting server node: " ++ e), st1)
    | (.ok sc, st1) =>
      match get_shard_index_from_string_key hashFn key sc with
      | .error e => (.jsonError 500 ("Error contacting server node: " ++ e), st1)
      | .ok idx =>
        match get_shard_address st1 now2 att2 (idx + 1) with
        | (.error e, st2) => (.jsonError 500 ("Error contacting server node: " ++ e), st2)
        | (.ok addr, st2) =>
          let url := "http://".data ++ addr ++ "/get?key=".data ++ quoteFn key
          match upstreamOf url with
          | none => (.jsonError 500 "Error contacting server node: request failed", st2)
          | some u => (.passThrough u.status u.body, st2)

/-- `put_handler` (router.py lines 255-293): like `get_handler` but requiring
both `key` and `val` (`key = key or form_data.get("key")` keeps a truthy query
value), and forwarding by POST with both parameters in the URL. -/
def put_handler (unquoteFn quoteFn : List Char → List Char)
    (hashFn : List Char → Nat) (req : ReqData) (st : RouterState)
    (now1 : Int) (att1 : FetchResults) (now2 : Int) (att2 : FetchResults)
    (upstreamOf : List Char → Option HttpResp) : HandlerResult × RouterState :=
  let key0 := req.query_key
  let val0 := req.query_val
  let key1 := if (!pyTruthy key0 || !pyTruthy val0) && req.ct_form then
      (if pyTruthy key0 then key0 else req.form_key) else key0
  let val1 := if (!pyTruthy key0 || !pyTruthy val0) && req.ct_form then
      (if pyTruthy val0 then val0 else req.form_val) else val0
  if !pyTruthy key1 || !pyTruthy val1 then
    (.jsonError 400 "Key and value parameters are required", st)
  else
    let key := unquoteFn (key1.getD [])
    let value := unquoteFn (val1.getD [])
    match get_shard_count st now1 att1 with
    | (.error e, st1) => (.jsonError 500 ("Error contacting server node: " ++ e), st1)
    | (.ok sc, st1) =>
      match get_shard_index_from_string_key hashFn key sc with
      | .error e => (.jsonError 500 ("Error contacting server node: " ++ e), st1)
      | .ok idx =>
        match get_shard_address st1 now2 att2 (idx + 1) with
        | (.error e, st2) => (.jsonError 500 ("Error contacting server node: " ++ e), st2)
        | (.ok addr, st2) =>
          let url := "http://".data ++ addr ++ "/put?key=".data ++ quoteFn key
            ++ "&val=".data ++ quoteFn value
          match upstreamOf url with
          | none => (.jsonError 500 "Error contacting server node: request failed", st2)
          | some u => (.passThrough u.status u.body, st2)

/-- `delete_handler` (router.py lines 296-329): the same shape as
`get_handler`, forwarding by DELETE to `/delete`. -/
def delete_handler (unquoteFn quoteFn : List Char → List Char)
    (hashFn : List Char → Nat) (req : ReqData) (st : RouterState)
    (now1 : Int) (att1 : FetchResults) (now2 : Int) (att2 : FetchResults)
    (upstreamOf : List Char → Option HttpResp) : HandlerResult × RouterState :=
  let key0 := req.query_key
  let key1 := if !pyTruthy key0 && req.ct_form then req.form_key else key0
  if !pyTruthy key1 then (.jsonError 400 "Key parameter is required", st)
  else
    let key := unquoteFn (key1.getD [])
    match get_shard_count st now1 att1 with
    | (.error e, st1) => (.jsonError 500 ("Error contacting server node: " ++ e), st1)
    | (.ok sc, st1) =>
      match get_shard_index_from_string_key hashFn key sc with
      | .error e => (.jsonError 500 ("Error contacting server node: " ++ e), st1)
      | .ok idx =>
        match get_shard_address st1 now2 att2 (idx + 1) with
        | (.error e, st2) => (.jsonError 500 ("Error contacting server node: " ++ e), st2)
        | (.ok addr, st2) =>
          let url := "http://".data ++ addr ++ "/delete?key=".data ++ quoteFn key
          match upstreamOf url with
          | none => (.jsonError 500 "Error contacting server node: request failed", st2)
          | some u => (.passThrough u.status u.body, st2)

/-- A concrete successful `/config` response: three shards, shard 1 led from
`10.0.0.1:8011`. Used to instantiate the cache/dispatch theorems. -/
def exampleConfig : ConfigResp :=
  ⟨true, some ⟨some 3, [(1, "10.0.0.1:8011".data)]⟩⟩

/-- A router state whose cache holds `exampleConfig`, fetched at time 0. -/
def exampleState : RouterState := ⟨some exampleConfig, 0⟩

theorem shardLoop_eq_find (reduced bucket_size : Int) :
    ∀ (n i : Nat), shardLoop reduced bucket_size n i =
      (List.range' i n).find? (fun j : Nat => decide (reduced < ((j : Int) + 1) * bucket_size)) := by
  intro n
  induction n with
  | zero => intro i; simp [shardLoop]
  | succ m ih =>
    intro i
    rw [List.range'_succ]
    simp only [shardLoop, List.find?_cons]
    by_cases h : reduced < ((i : Int) + 1) * bucket_size
    · simp [h]
    · simp [h, ih]

theorem shardLoop_lt (reduced bucket_size : Int) :
    ∀ (n i j : Nat), shardLoop reduced bucket_size n i = some j → j < i + n := by
  intro n
  induction n with
  | zero => intro i j h; simp [shardLoop] at h
  | succ m ih =>
    intro i j h
    simp only [shardLoop] at h
    by_cases hc : reduced < ((i : Int) + 1) * bucket_size
    · rw [if_pos hc] at h
      injection h with h
      omega
    · rw [if_neg hc] at h
      have := ih (i + 1) j h
      omega

theorem get_shard_index_from_hash_range (hv sc : Int) (hpos : 0 < sc) :
    ∃ i : Int, get_shard_index_from_hash hv sc = .ok i ∧ 0 ≤ i ∧ i < sc := by
  have hneg : ¬ sc ≤ 0 := not_le.mpr hpos
  simp only [get_shard_index_from_hash, if_neg hneg]
  cases hl : shardLoop (hv % HASH_MODULO) (HASH_MODULO / sc) sc.toNat 0 with
  | some j =>
    have hj := shardLoop_lt _ _ _ _ _ hl
    exact ⟨(j : Int), rfl, by omega, by omega⟩
  | none =>
    exact ⟨sc - 1, rfl, by omega, by omega⟩

/-- C1: `get_shard_index_from_hash` agrees with the spec's bucket algorithm
(smallest `i` with `reduced < (i+1) * bucketSize`, fallback `shardCount - 1`)
on every input; the spec's boundary examples for `shardCount = 3` hold
(reduced 5000 maps to index 0, reduced 11000 to index 2); and the call fails
with the `InvalidArgument`-style `ValueError` exactly when `shardCount ≤ 0`. -/
theorem C1_shard_index_matches_spec :
    (∀ hash_value shard_count : Int,
        get_shard_index_from_hash hash_value shard_count =
          shardIndex_specAlg hash_value shard_count) ∧
    get_shard_index_from_hash 5000 3 = .ok 0 ∧
    get_shard_index_from_hash 11000 3 = .ok 2 ∧
    (∀ hash_value shard_count : Int,
        shard_count ≤ 0 ↔
          get_shard_index_from_hash hash_value shard_count =
            .error "Shard count must be positive") := by
  refine ⟨?_, rfl, rfl, ?_⟩
  · intro hv sc
    by_cases hsc : sc ≤ 0
    · simp [get_shard_index_from_hash, shardIndex_specAlg, hsc]
    · simp only [get_shard_index_from_hash, shardIndex_specAlg, if_neg hsc,
        HASH_MODULO, shardLoop_eq_find, List.range_eq_range']
  · intro hv sc
    constructor
    · intro hsc
      simp [get_shard_index_from_hash, hsc]
    · intro h
      by_contra hsc
      obtain ⟨i, hi, _, _⟩ := get_shard_index_from_hash_range hv sc (by omega)
      rw [hi] at h
      exact Except.noConfusion h

/-- C2: for every hash function (standing for the external MurmurHash3), every
key and every `shard_count > 0`, `get_shard_index_from_string_key` succeeds and
returns an index `i` with `0 ≤ i < shard_count`. -/
theorem C2_shard_index_for_key_in_range (hashFn : List Char → Nat)
    (key : List Char) (shard_count : Int) (hpos : 0 < shard_count) :
    ∃ i : Int, get_shard_index_from_string_key hashFn key shard_count = .ok i ∧
      0 ≤ i ∧ i < shard_count :=
  get_shard_index_from_hash_range ((hashFn key : Nat) : Int) shard_count hpos

/-- C2 witness: a concrete instantiation of `C2_shard_index_for_key_in_range`
at a constant hash function, the key "foo" and shard count 3. -/
theorem C2_shard_index_for_key_in_range_witness :
    (0 : Int) < 3 ∧
      ∃ i : Int, get_shard_index_from_string_key (fun _ => 0) "foo".data 3 = .ok i ∧
        0 ≤ i ∧ i < 3 :=
  ⟨by omega, C2_shard_index_for_key_in_range (fun _ => 0) "foo".data 3 (by omega)⟩

theorem splitOnColon_no_colon (s : List Char) (h : ':' ∉ s) : splitOnColon s = [s] := by
  induction s with
  | nil => rfl
  | cons c cs ih =>
    have hc : ¬ c = ':' := by
      intro e
      exact h (by simp [e])
    have hcs : ':' ∉ cs := fun m => h (List.mem_cons_of_mem _ m)
    simp only [splitOnColon, if_neg hc, ih hcs]

theorem splitOnColon_append (host rest : List Char) (h : ':' ∉ host) :
    splitOnColon (host ++ ':' :: rest) = host :: splitOnColon rest := by
  induction host with
  | nil => simp [splitOnColon]
  | cons c cs ih =>
    have hc : ¬ c = ':' := by
      intro e
      exact h (by simp [e])
    have hcs : ':' ∉ cs := fun m => h (List.mem_cons_of_mem _ m)
    simp only [List.cons_append, splitOnColon, if_neg hc, List.append_eq, ih hcs]

/-- C3: an address of the form `host:port` (single colon, numeric port) that
contains the `":18"` marker translates to `host:(port - 10000)`; an address
without the marker is returned unchanged; and the spec's two concrete
examples hold. -/
theorem C3_translate_marker :
    (∀ (host portStr : List Char) (p : Int), ':' ∉ host → ':' ∉ portStr →
        parsePort portStr = some p →
        containsSub raftMarker (host ++ ':' :: portStr) = true →
        AddressResolver.translate (host ++ ':' :: portStr) =
          .ok (host ++ ':' :: renderInt (p - 10000))) ∧
    (∀ address : List Char, containsSub raftMarker address = false →
        AddressResolver.translate address = .ok address) ∧
    AddressResolver.translate "10.0.0.5:18021".data = .ok "10.0.0.5:8021".data ∧
    AddressResolver.translate "10.0.0.5:8021".data = .ok "10.0.0.5:8021".data := by
  refine ⟨?_, ?_, by rfl, by rfl⟩
  · intro host portStr p hh hp hparse hmark
    simp only [AddressResolver.translate, hmark, if_true,
      splitOnColon_append host portStr hh, splitOnColon_no_colon portStr hp, hparse]
  · intro address hmark
    simp [AddressResolver.translate, hmark]

/-- C3 witness: `C3_translate_marker` applied to host `10.0.0.5` and
port `18021`. -/
theorem C3_translate_marker_witness :
    AddressResolver.translate ("10.0.0.5".data ++ ':' :: "18021".data) =
      .ok ("10.0.0.5".data ++ ':' :: renderInt (18021 - 10000)) :=
  C3_translate_marker.1 "10.0.0.5".data "18021".data 18021
    (by decide) (by decide) (by decide) (by decide)

/-- C4 counterexample: the claim says `translate("badaddress")` fails with
`InvalidAddress`, but the code checks the address format only when the
`":18"` marker is present, so `"badaddress"` is returned unchanged. -/
theorem C4_counterexample_badaddress :
    AddressResolver.translate "badaddress".data = .ok "badaddress".data := by rfl

/-- C4 amended: only for addresses containing the `":18"` marker does the
code validate the format; such an address failing to split into exactly two
parts, or whose port does not parse, yields the `InvalidAddress`-style
`ValueError`; an address without the marker is returned unchanged even when
malformed. -/
theorem C4_translate_invalid_amended :
    (∀ address : List Char, containsSub raftMarker address = true →
        (splitOnColon address).length ≠ 2 →
        AddressResolver.translate address =
          .error ("Invalid leader address format: " ++ String.mk address)) ∧
    (∀ address hst prt : List Char, containsSub raftMarker address = true →
        splitOnColon address = [hst, prt] → parsePort prt = none →
        AddressResolver.translate address = .error "Error parsing port") ∧
    (∀ address : List Char, containsSub raftMarker address = false →
        AddressResolver.translate address = .ok address) := by
  refine ⟨?_, ?_, ?_⟩
  · intro address hmark hlen
    simp only [AddressResolver.translate, hmark, if_true]
    rcases hs : splitOnColon address with - | ⟨a, - | ⟨b, - | ⟨c, t⟩⟩⟩
    · rfl
    · rfl
    · rw [hs] at hlen
      simp at hlen
    · rfl
  · intro address hst prt hmark hs hparse
    simp only [AddressResolver.translate, hmark, if_true, hs, hparse]
  · intro address hmark
    simp [AddressResolver.translate, hmark]

/-- C4 amended witness: `C4_translate_invalid_amended` applied to the
malformed marker-bearing addresses `a:18:b` (three parts) and `host:18xy`
(unparseable port). -/
theorem C4_translate_invalid_amended_witness :
    AddressResolver.translate "a:18:b".data =
      .error ("Invalid leader address format: " ++ String.mk "a:18:b".data) ∧
    AddressResolver.translate "host:18xy".data = .error "Error parsing port" :=
  ⟨C4_translate_invalid_amended.1 "a:18:b".data (by decide) (by decide),
   C4_translate_invalid_amended.2.1 "host:18xy".data "host".data "18xy".data
     (by decide) (by decide) (by decide)⟩

theorem firstSuccess_eq_none (attempts : FetchResults)
    (h : attempts.all attemptUnsuccessful = true) : firstSuccess attempts = none := by
  induction attempts with
  | nil => rfl
  | cons r rs ih =>
    rw [List.all_cons, Bool.and_eq_true] at h
    cases r with
    | none => exact ih h.2
    | some c =>
      have hs : c.success = false := by
        have h1 := h.1
        simpa [attemptUnsuccessful] using h1
      simp [firstSuccess, hs, ih h.2]

/-- C5: a valid cache entry (`now - fetchedAt < 30`) is returned as-is, with
the state unchanged and the result independent of the fetch outcomes (no
network calls), so two calls inside the TTL window return the identical
cached object; on a cache miss a successful race stores the winner with the
time taken at the start of the call. -/
theorem C5_get_config_cache :
    (∀ (st : RouterState) (now now2 : Int) (a a2 : FetchResults) (c : ConfigResp),
        st.config_cache = some c → now - st.cache_timestamp < 30 →
        now2 - st.cache_timestamp < 30 →
        get_config st now a = (some c, st) ∧ get_config st now2 a2 = (some c, st)) ∧
    (∀ (st : RouterState) (now : Int) (a : FetchResults) (c : ConfigResp),
        ¬(st.config_cache.isSome = true ∧ now - st.cache_timestamp < 30) →
        firstSuccess a = some c →
        get_config st now a = (some c, ⟨some c, now⟩)) := by
  constructor
  · intro st now now2 a a2 c hc h1 h2
    constructor
    · unfold get_config
      rw [if_pos ⟨by rw [hc]; rfl, h1⟩, hc]
    · unfold get_config
      rw [if_pos ⟨by rw [hc]; rfl, h2⟩, hc]
  · intro st now a c hmiss hwin
    unfold get_config
    rw [if_neg hmiss, hwin]

/-- C5 witness: two cache hits at times 5 and 10 on a cache filled at time 0
(with differing fetch oracles), and a miss at time 0 on an empty cache that
stores the race winner. -/
theorem C5_get_config_cache_witness :
    (get_config exampleState 5 [] = (some exampleConfig, exampleState) ∧
      get_config exampleState 10 [none] = (some exampleConfig, exampleState)) ∧
    get_config ⟨none, 0⟩ 0 [some exampleConfig] =
      (some exampleConfig, ⟨some exampleConfig, 0⟩) :=
  ⟨C5_get_config_cache.1 exampleState 5 10 [] [none] exampleConfig rfl
      (by simp [exampleState]) (by simp [exampleState]),
   C5_get_config_cache.2 ⟨none, 0⟩ 0 [some exampleConfig] exampleConfig
      (by simp) rfl⟩

/-- C6: when the cache is absent or expired and every fetch attempt fails
(times out, errors, or reports `success == false`), `get_config` returns
`None` with the state untouched (the stale cache entry is not used as a
fallback), and `get_shard_count` surfaces the `RuntimeError`. -/
theorem C6_discovery_unavailable (st : RouterState) (now : Int) (a : FetchResults)
    (hmiss : ¬(st.config_cache.isSome = true ∧ now - st.cache_timestamp < 30))
    (hfail : a.all attemptUnsuccessful = true) :
    get_config st now a = (none, st) ∧
      get_shard_count st now a =
        (.error "Could not retrieve cluster configuration.", st) := by
  have h1 : get_config st now a = (none, st) := by
    unfold get_config
    rw [if_neg hmiss, firstSuccess_eq_none a hfail]
  refine ⟨h1, ?_⟩
  unfold get_shard_count
  rw [h1]

/-- C6 witness: an expired cache (filled at time 0, queried at time 100) with
one errored fetch and one `success == false` response: discovery fails and the
stale entry is not returned. -/
theorem C6_discovery_unavailable_witness :
    get_config exampleState 100 [none, some ⟨false, none⟩] = (none, exampleState) ∧
      get_shard_count exampleState 100 [none, some ⟨false, none⟩] =
        (.error "Could not retrieve cluster configuration.", exampleState) :=
  C6_discovery_unavailable exampleState 100 [none, some ⟨false, none⟩]
    (by simp [exampleState]) (by decide)

/-- C10: a discovery round in which no attempt succeeds leaves the cache entry
and its timestamp exactly as they were, so any later call starts from the same
prior state. -/
theorem C10_failed_discovery_frame (st : RouterState) (now : Int) (a : FetchResults)
    (hfail : a.all attemptUnsuccessful = true) :
    (get_config st now a).2 = st ∧
      ∀ (now2 : Int) (a2 : FetchResults),
        get_config (get_config st now a).2 now2 a2 = get_config st now2 a2 := by
  have h2 : (get_config st now a).2 = st := by
    unfold get_config
    by_cases h : st.config_cache.isSome = true ∧ now - st.cache_timestamp < 30
    · rw [if_pos h]
    · rw [if_neg h, firstSuccess_eq_none a hfail]
  exact ⟨h2, fun now2 a2 => by rw [h2]⟩

/-- C10 witness: the failed discovery of the C6 scenario leaves the state
bit-for-bit unchanged. -/
theorem C10_failed_discovery_frame_witness :
    (get_config exampleState 100 [none, some ⟨false, none⟩]).2 = exampleState :=
  (C10_failed_discovery_frame exampleState 100 [none, some ⟨false, none⟩]
    (by decide)).1

/-- C7: with a config available, `get_shard_address` fails with the
`ShardNotFound`-style `ValueError` when the shard id is absent from the
config's shard map or maps to an empty address, and otherwise returns the
stored address passed through `AddressResolver.translate`. -/
theorem C7_get_shard_address (st st1 : RouterState) (now : Int) (a : FetchResults)
    (c : ConfigResp) (sid : Int)
    (hc : get_config st now a = (some c, st1)) :
    ((c.data.getD emptyConfigData).shards.lookup sid = none ∨
        (c.data.getD emptyConfigData).shards.lookup sid = some [] →
      get_shard_address st now a sid =
        (.error ("Shard " ++ toString sid ++ " not found in config"), st1)) ∧
    (∀ addr : List Char,
      (c.data.getD emptyConfigData).shards.lookup sid = some addr → addr ≠ [] →
      get_shard_address st now a sid = (AddressResolver.translate addr, st1)) := by
  constructor
  · intro h
    simp only [get_shard_address, hc]
    rcases h with h | h
    · rw [h]
    · rw [h]
      simp
  · intro addr ha hne
    simp only [get_shard_address, hc, ha, if_neg hne]
    cases AddressResolver.translate addr <;> rfl

/-- C7 witness: `C7_get_shard_address` on the cached three-shard config:
shard 2 is absent from the map, shard 1 resolves through `translate`. -/
theorem C7_get_shard_address_witness :
    get_shard_address exampleState 5 [] 2 =
      (.error ("Shard " ++ toString (2 : Int) ++ " not found in config"),
        exampleState) ∧
    get_shard_address exampleState 5 [] 1 =
      (AddressResolver.translate "10.0.0.1:8011".data, exampleState) :=
  ⟨(C7_get_shard_address exampleState exampleState 5 [] exampleConfig 2
      (by decide)).1 (by decide),
   (C7_get_shard_address exampleState exampleState 5 [] exampleConfig 1
      (by decide)).2 "10.0.0.1:8011".data (by decide) (by decide)⟩

/-- C8: when parameter extraction, discovery, hashing, address resolution and
the forwarded call all succeed, each dispatched get/put/delete handler relays
the upstream status code and body to the client unmodified. -/
theorem C8_handlers_pass_through :
    (∀ (unquoteFn quoteFn : List Char → List Char) (hashFn : List Char → Nat)
        (req : ReqData) (st st1 st2 : RouterState) (now1 now2 : Int)
        (att1 att2 : FetchResults) (upstreamOf : List Char → Option HttpResp)
        (k addr : List Char) (sc idx : Int) (u : HttpResp),
        req.query_key = some k → k ≠ [] →
        get_shard_count st now1 att1 = (.ok sc, st1) →
        get_shard_index_from_string_key hashFn (unquoteFn k) sc = .ok idx →
        get_shard_address st1 now2 att2 (idx + 1) = (.ok addr, st2) →
        upstreamOf ("http://".data ++ addr ++ "/get?key=".data
            ++ quoteFn (unquoteFn k)) = some u →
        get_handler unquoteFn quoteFn hashFn req st now1 att1 now2 att2 upstreamOf =
          (.passThrough u.status u.body, st2)) ∧
    (∀ (unquoteFn quoteFn : List Char → List Char) (hashFn : List Char → Nat)
        (req : ReqData) (st st1 st2 : RouterState) (now1 now2 : Int)
        (att1 att2 : FetchResults) (upstreamOf : List Char → Option HttpResp)
        (k v addr : List Char) (sc idx : Int) (u : HttpResp),
        req.query_key = some k → k ≠ [] →
        req.query_val = some v → v ≠ [] →
        get_shard_count st now1 att1 = (.ok sc, st1) →
        get_shard_index_from_string_key hashFn (unquoteFn k) sc = .ok idx →
        get_shard_address st1 now2 att2 (idx + 1) = (.ok addr, st2) →
        upstreamOf ("http://".data ++ addr ++ "/put?key=".data
            ++ quoteFn (unquoteFn k) ++ "&val=".data ++ quoteFn (unquoteFn v)) = some u →
        put_handler unquoteFn quoteFn hashFn req st now1 att1 now2 att2 upstreamOf =
          (.passThrough u.status u.body, st2)) ∧
    (∀ (unquoteFn quoteFn : List Char → List Char) (hashFn : List Char → Nat)
        (req : ReqData) (st st1 st2 : RouterState) (now1 now2 : Int)
        (att1 att2 : FetchResults) (upstreamOf : List Char → Option HttpResp)
        (k addr : List Char) (sc idx : Int) (u : HttpResp),
        req.query_key = some k → k ≠ [] →
        get_shard_count st now1 att1 = (.ok sc, st1) →
        get_shard_index_from_string_key hashFn (unquoteFn k) sc = .ok idx →
        get_shard_address st1 now2 att2 (idx + 1) = (.ok addr, st2) →
        upstreamOf ("http://".data ++ addr ++ "/delete?key=".data
            ++ quoteFn (unquoteFn k)) = some u →
        delete_handler unquoteFn quoteFn hashFn req st now1 att1 now2 att2 upstreamOf =
          (.passThrough u.status u.body, st2)) := by
  refine ⟨?_, ?_, ?_⟩
  · intro uq q hf req st st1 st2 n1 n2 a1 a2 f k addr sc idx u hk hkne hcount hidx haddr hup
    have hke : k.isEmpty = false := by
      cases k with
      | nil => exact absurd rfl hkne
      | cons c t => rfl
    simp only [get_handler, hk, pyTruthy, hke, hcount, hidx, haddr, Bool.not_false,
      Bool.not_true, Bool.true_and, Bool.false_and, if_false, Option.getD_some,
      Bool.and_self, ite_false]
    simp at hup ⊢
    simp only [if_neg hkne, hidx, haddr, hup]
  · intro uq q hf req st st1 st2 n1 n2 a1 a2 f k v addr sc idx u hk hkne hv hvne
      hcount hidx haddr hup
    have hke : k.isEmpty = false := by
      cases k with
      | nil => exact absurd rfl hkne
      | cons c t => rfl
    have hve : v.isEmpty = false := by
      cases v with
      | nil => exact absurd rfl hvne
      | cons c t => rfl
    simp only [put_handler, hk, hv, pyTruthy, hke, hve, hcount, hidx, haddr, Bool.not_false,
      Bool.not_true, Bool.true_and, Bool.false_and, if_false, Option.getD_some,
      Bool.and_self, ite_false]
    have hnotor : ¬(k = [] ∨ v = []) := by
      intro hor
      rcases hor with h1 | h1
      · exact hkne h1
      · exact hvne h1
    simp at hup ⊢
    simp only [if_neg hnotor, hidx, haddr, hup]
  · intro uq q hf req st st1 st2 n1 n2 a1 a2 f k addr sc idx u hk hkne hcount hidx haddr hup
    have hke : k.isEmpty = false := by
      cases k with
      | nil => exact absurd rfl hkne
      | cons c t => rfl
    simp only [delete_handler, hk, pyTruthy, hke, hcount, hidx, haddr, Bool.not_false,
      Bool.not_true, Bool.true_and, Bool.false_and, if_false, Option.getD_some,
      Bool.and_self, ite_false]
    simp at hup ⊢
    simp only [if_neg hkne, hidx, haddr, hup]

/-- C8 witness: `C8_handlers_pass_through` on the cached three-shard config
with key `foo` hashing to bucket 0 (shard 1 at `10.0.0.1:8011`) and an
upstream answering 200 with body `body`: each handler relays exactly that
status and body. -/
theorem C8_handlers_pass_through_witness :
    get_handler id id (fun _ => 0) ⟨some "foo".data, none, false, none, none⟩
        exampleState 5 [] 5 [] (fun _ => some ⟨200, "body".data⟩) =
      (.passThrough 200 "body".data, exampleState) ∧
    put_handler id id (fun _ => 0) ⟨some "foo".data, some "bar".data, false, none, none⟩
        exampleState 5 [] 5 [] (fun _ => some ⟨200, "body".data⟩) =
      (.passThrough 200 "body".data, exampleState) ∧
    delete_handler id id (fun _ => 0) ⟨some "foo".data, none, false, none, none⟩
        exampleState 5 [] 5 [] (fun _ => some ⟨200, "body".data⟩) =
      (.passThrough 200 "body".data, exampleState) :=
  ⟨C8_handlers_pass_through.1 id id (fun _ => 0) _ exampleState exampleState exampleState
      5 5 [] [] _ "foo".data "10.0.0.1:8011".data 3 0 ⟨200, "body".data⟩
      rfl (by decide) rfl rfl rfl rfl,
   C8_handlers_pass_through.2.1 id id (fun _ => 0) _ exampleState exampleState exampleState
      5 5 [] [] _ "foo".data "bar".data "10.0.0.1:8011".data 3 0 ⟨200, "body".data⟩
      rfl (by decide) rfl (by decide) rfl rfl rfl rfl,
   C8_handlers_pass_through.2.2 id id (fun _ => 0) _ exampleState exampleState exampleState
      5 5 [] [] _ "foo".data "10.0.0.1:8011".data 3 0 ⟨200, "body".data⟩
      rfl (by decide) rfl rfl rfl rfl⟩

/-- C9: a request whose required parameter is absent from both the query
string and the form body (key for get/delete; key or val for put) is answered
400 with the error message naming the required parameter, before any
discovery, hashing or forwarding: the result is the same for every router
state, fetch oracle, hash function and upstream, and the state is returned
unchanged. -/
theorem C9_missing_parameter (unquoteFn quoteFn : List Char → List Char)
    (hashFn : List Char → Nat) (st : RouterState) (now1 now2 : Int)
    (att1 att2 : FetchResults) (upstreamOf : List Char → Option HttpResp)
    (ct : Bool) (qv fv qk fk : Option (List Char)) :
    get_handler unquoteFn quoteFn hashFn ⟨none, qv, ct, none, fv⟩ st now1 att1
        now2 att2 upstreamOf = (.jsonError 400 "Key parameter is required", st) ∧
    delete_handler unquoteFn quoteFn hashFn ⟨none, qv, ct, none, fv⟩ st now1 att1
        now2 att2 upstreamOf = (.jsonError 400 "Key parameter is required", st) ∧
    put_handler unquoteFn quoteFn hashFn ⟨none, qv, ct, none, fv⟩ st now1 att1
        now2 att2 upstreamOf =
      (.jsonError 400 "Key and value parameters are required", st) ∧
    put_handler unquoteFn quoteFn hashFn ⟨qk, none, ct, fk, none⟩ st now1 att1
        now2 att2 upstreamOf =
      (.jsonError 400 "Key and value parameters are required", st) := by
  refine ⟨?_, ?_, ?_, ?_⟩ <;>
    cases ct <;>
      simp [get_handler, delete_handler, put_handler, pyTruthy]
